import Mathlib

/-!
# Verification of the Athena-to-Postgres migration script

A shallow embedding of `src/athena-to-postgres.js`: the metadata
resolution and sequential table loop (`insertTablesInOrder`), the query
submission / polling / paging routine (`queryAthena`) and the batch
loader (`insertIntoPostgresAsBatch`).  External effects (the Athena SDK
calls and the Postgres pool) are passed in as explicit inputs; the
functions return the observable outcome of each call.
-/

namespace AthenaToPostgres

/-- A query-execution state as reported by `GetQueryExecutionCommand`
(`response.QueryExecution.Status.State`). -/
inductive QState where
  | submitted
  | running
  | succeeded
  | failed
  deriving DecidableEq

/-- One polling response: the state together with the
`StateChangeReason` (modelled as the empty string when the service omits
it). -/
structure StatusResp where
  state : QState
  reason : String

/-- One page of query results as returned by `GetQueryResultsCommand`:
the rows (`ResultSet.Rows`, each row already projected to its
`VarCharValue` strings) and the optional `NextToken`. -/
structure ResultPage where
  rows : List (List String)
  nextToken : Option String

/-- Well-formedness of the page sequence a query execution produces:
every page except the last carries a `NextToken`, and the last page does
not. -/
def chainB : List ResultPage → Bool
  | [] => true
  | [p] => p.nextToken.isNone
  | p :: q :: rest => p.nextToken.isSome && chainB (q :: rest)

/-- The do/while paging loop of `queryAthena`
(src/athena-to-postgres.js, lines 123-138), instrumented with the
`NextToken` supplied to each `GetQueryResultsCommand`.  `pages` is the
sequence the service returns: the i-th fetch yields the i-th page.  Each
iteration records the token supplied for that fetch together with the
rows handed to `insertIntoPostgresAsBatch`: the first row is stripped
(`.slice(1)`) exactly when no token was supplied, and the loop continues
while the returned `NextToken` is present. -/
def pagingTrace : Option String → List ResultPage → List (Option String × List (List String))
  | _, [] => []
  | tok, page :: rest =>
    let rows := if tok.isNone then page.rows.drop 1 else page.rows
    (tok, rows) ::
      match page.nextToken with
      | none => []
      | some t => pagingTrace (some t) rest

/-- The column count used for placeholder numbering,
`rows[0]?.length` (line 150); the JavaScript value is `undefined` when
the batch is empty, modelled as `0` (in that case no placeholder is
generated at all, so the value is never used). -/
def columnsCount (rows : List (List String)) : Nat :=
  (rows.head?.map List.length).getD 0

/-- The placeholder numbers generated for row `i` of a batch:
column index `j` receives `i * columnsCount + j + 1` (line 153). -/
def rowPlaceholders (c i : Nat) (row : List String) : List Nat :=
  row.enum.map fun q => i * c + q.1 + 1

/-- All placeholder numbers of a batch, flattened in generation order
(lines 152-156). -/
def batchPlaceholders (rows : List (List String)) : List Nat :=
  (rows.enum.map fun p => rowPlaceholders (columnsCount rows) p.1 p.2).flatten

/-- The flat parameter array `values`, filled by `values.push(...row)`
while the placeholders are generated (lines 151-154). -/
def batchValues (rows : List (List String)) : List String :=
  rows.flatten

/-- The placeholder group text for one row, for example `($1, $2)`
(lines 153-155). -/
def rowPlaceholderText (c i : Nat) (row : List String) : String :=
  "(" ++ String.intercalate ", "
      ((rowPlaceholders c i row).map fun n => "$" ++ toString n) ++ ")"

/-- The INSERT statement text built by `insertIntoPostgresAsBatch`
(line 157): schema-qualified table name, column list, and the
comma-joined placeholder groups of all rows. -/
def insertQueryText (schema tableName : String) (columns : List String)
    (rows : List (List String)) : String :=
  "INSERT INTO " ++ schema ++ "." ++ tableName ++ " ("
    ++ String.intercalate ", " columns ++ ") VALUES "
    ++ String.intercalate ", "
        (rows.enum.map fun p => rowPlaceholderText (columnsCount rows) p.1 p.2)

/-- The observable outcome of one `insertIntoPostgresAsBatch` call:
the statement text and parameters, whether `client.query` was invoked,
how many times `client.release()` ran, and what was logged. -/
structure BatchCall where
  tableName : String
  query : String
  values : List String
  executed : Bool
  releases : Nat
  errorLog : Option String
  insertedCount : Option Nat

/-- Model of `insertIntoPostgresAsBatch(tableName, columns, rows)`
(lines 147-167), with the database response to `client.query` supplied
as `outcome` (`.ok rowCount` or `.error message`).  The function always
builds the statement, always acquires a connection, always executes the
query inside `try`, logs any error in `catch` (it does not rethrow), and
releases the connection in `finally`. -/
def insertIntoPostgresAsBatch (schema tableName : String) (columns : List String)
    (rows : List (List String)) (outcome : Except String Nat) : BatchCall :=
  let query := insertQueryText schema tableName columns rows
  match outcome with
  | .ok n =>
      { tableName := tableName, query := query, values := batchValues rows,
        executed := true, releases := 1, errorLog := none, insertedCount := some n }
  | .error _ =>
      { tableName := tableName, query := query, values := batchValues rows,
        executed := true, releases := 1,
        errorLog := some ("Error while inserting into Postgres table " ++ tableName),
        insertedCount := none }

/-- The polling loop of `queryAthena` (lines 114-143) observed on a
trace of `GetQueryExecutionCommand` responses: the loop stops at the
first FAILED or SUCCEEDED response (checking FAILED first) and keeps
polling otherwise.  `none` means the whole trace passed with no terminal
state, in which case the real loop would keep polling forever. -/
def pollStatuses : List StatusResp → Option StatusResp
  | [] => none
  | s :: rest =>
    if s.state = QState.failed then some s
    else if s.state = QState.succeeded then some s
    else pollStatuses rest

/-- The observable outcome of one `queryAthena` call that returned
normally: the SELECT text submitted, how many times the query was
submitted, the FAILED reason written by `console.error` (if any), the
number of result pages fetched, and the batch-insert calls made. -/
structure QueryRun where
  queryString : String
  submitCount : Nat
  failureReasonLogged : Option String
  fetchedPages : Nat
  batches : List BatchCall

/-- Model of `queryAthena(athTableName, pgTableName, columns)` (lines 94-145).
`submission` models `client.send(startCommand)`: a `.error` value is an
SDK exception, which propagates out of the function since there is no
try/catch around it.  `statuses` is the successive
`GetQueryExecutionCommand` responses, `pages` the result pages, and
`db i` the database response to the i-th batch insert of this query.
Result: `.error e` means the call threw `e`; `.ok none` means the
polling loop never reached a terminal state; `.ok (some run)` is a
normal return.  On FAILED the code logs the `StateChangeReason` and
breaks out of the loop without throwing and without fetching any result
page; on SUCCEEDED it runs the paging loop, handing every page to
`insertIntoPostgresAsBatch`. -/
def queryAthena (schema athTableName pgTableName : String) (columns : List String)
    (submission : Except String String) (statuses : List StatusResp)
    (pages : List ResultPage) (db : Nat → Except String Nat) :
    Except String (Option QueryRun) :=
  let queryString := "SELECT " ++ String.intercalate ", " columns
      ++ " FROM " ++ athTableName
  match submission with
  | .error e => .error e
  | .ok _ =>
    match pollStatuses statuses with
    | none => .ok none
    | some s =>
      if s.state = QState.failed then
        .ok (some { queryString := queryString, submitCount := 1,
                    failureReasonLogged := some s.reason,
                    fetchedPages := 0, batches := [] })
      else
        .ok (some { queryString := queryString, submitCount := 1,
                    failureReasonLogged := none,
                    fetchedPages := (pagingTrace none pages).length,
                    batches := (pagingTrace none pages).enum.map fun p =>
                      insertIntoPostgresAsBatch schema pgTableName columns
                        p.2.2 (db p.1) })

/-- The outcome of a `queryAthena` call whose execution ended FAILED:
the reason is logged, no page is fetched, no batch is run, and the call
returns normally. -/
def failedRun (columns : List String) (ath reason : String) : QueryRun :=
  { queryString := "SELECT " ++ String.intercalate ", " columns ++ " FROM " ++ ath,
    submitCount := 1, failureReasonLogged := some reason,
    fetchedPages := 0, batches := [] }

/-- The outcome of a `queryAthena` call whose execution succeeded: the
paging loop runs and every page is handed to the batch loader. -/
def succeededRun (schema ath pg : String) (columns : List String)
    (pages : List ResultPage) (db : Nat → Except String Nat) : QueryRun :=
  { queryString := "SELECT " ++ String.intercalate ", " columns ++ " FROM " ++ ath,
    submitCount := 1, failureReasonLogged := none,
    fetchedPages := (pagingTrace none pages).length,
    batches := (pagingTrace none pages).enum.map fun p =>
      insertIntoPostgresAsBatch schema pg columns p.2.2 (db p.1) }

/-- One resolved table definition: the Athena table name, the Postgres
table name and the ordered column list. -/
structure TableDef where
  athName : String
  pgName : String
  columns : List String

/-- Metadata resolution for one configured table name (lines 74-86):
`GetTableMetadataCommand` yields the column list (modelled by `meta`),
and the Postgres table name is `tableName.substring(6)` — the source
name with its first six characters removed. -/
def resolveMetadata (meta : String → List String) (tableName : String) : TableDef :=
  { athName := tableName, pgName := tableName.drop 6, columns := meta tableName }

/-- The observable outcome of the sequential table loop: the uncaught
error that aborted the run (if any), the tables whose processing began
(in order), the per-table results of the tables that completed, and
whether some polling loop never terminated. -/
structure RunResult where
  raised : Option String
  reached : List String
  results : List (String × QueryRun)
  hung : Bool

/-- The `for (const table of tablesWithColumns)` loop of
`insertTablesInOrder` (lines 88-90): tables are processed strictly one
at a time, in list order; an error thrown by `queryAthena` is not caught
anywhere, so it stops the loop immediately and propagates. -/
def runTables (schema : String) (sub : String → Except String String)
    (stat : String → List StatusResp) (pgs : String → List ResultPage)
    (db : String → Nat → Except String Nat) : List TableDef → RunResult
  | [] => { raised := none, reached := [], results := [], hung := false }
  | t :: rest =>
    match queryAthena schema t.athName t.pgName t.columns (sub t.athName)
        (stat t.athName) (pgs t.athName) (db t.athName) with
    | .error e =>
        { raised := some e, reached := [t.athName], results := [], hung := false }
    | .ok none =>
        { raised := none, reached := [t.athName], results := [], hung := true }
    | .ok (some r) =>
        let k := runTables schema sub stat pgs db rest
        { raised := k.raised, reached := t.athName :: k.reached,
          results := (t.athName, r) :: k.results, hung := k.hung }

/-- Model of `insertTablesInOrder()` (lines 73-91): resolve metadata for every
configured name (the `map` over `glueTableNameList` joined by
`Promise.all` — every resolution completes before the loop starts), then
run the strictly sequential loop over the fully resolved list. -/
def insertTablesInOrder (schema : String) (names : List String)
    (meta : String → List String) (sub : String → Except String String)
    (stat : String → List StatusResp) (pgs : String → List ResultPage)
    (db : String → Nat → Except String Nat) : RunResult :=
  runTables schema sub stat pgs db (names.map (resolveMetadata meta))

/-- The process exit code of the script (lines 194-198): the top level
awaits `insertTablesInOrder` and logs a completion line; an uncaught
error aborts the process with a non-zero code, otherwise the script
exits `0`.  `none` models a run that never terminates because a polling
loop never reached a terminal state. -/
def scriptExitCode (r : RunResult) : Option Nat :=
  if r.hung then none
  else if r.raised.isSome then some 1
  else some 0

/-- Whether a completed table run hit a FAILED query execution (its
failure was only logged, never rethrown). -/
def queryFailed (r : QueryRun) : Bool :=
  r.failureReasonLogged.isSome

lemma pagingTrace_cons_none (tok : Option String) (page : ResultPage)
    (rest : List ResultPage) (h : page.nextToken = none) :
    pagingTrace tok (page :: rest)
      = [(tok, if tok.isNone then page.rows.drop 1 else page.rows)] := by
  simp [pagingTrace, h]

lemma pagingTrace_cons_some (tok : Option String) (page : ResultPage)
    (rest : List ResultPage) (t : String) (h : page.nextToken = some t) :
    pagingTrace tok (page :: rest)
      = (tok, if tok.isNone then page.rows.drop 1 else page.rows)
          :: pagingTrace (some t) rest := by
  simp [pagingTrace, h]

lemma pagingTrace_all_pass (t : String) :
    ∀ (ps : List ResultPage), chainB ps = true →
      (pagingTrace (some t) ps).map Prod.snd = ps.map ResultPage.rows
      ∧ (pagingTrace (some t) ps).map (fun e => e.1.isNone)
          = List.replicate ps.length false
  | [], _ => ⟨rfl, rfl⟩
  | [p], h => by
      have hp : p.nextToken = none := by
        simpa [chainB, Option.isNone_iff_eq_none] using h
      rw [pagingTrace_cons_none (some t) p [] hp]
      constructor <;> simp
  | p :: q :: rest, h => by
      have h1 : p.nextToken.isSome = true := by
        simp [chainB] at h; exact h.1
      have h2 : chainB (q :: rest) = true := by
        simp [chainB] at h; exact h.2
      obtain ⟨t2, ht2⟩ := Option.isSome_iff_exists.mp h1
      have ih := pagingTrace_all_pass t2 (q :: rest) h2
      rw [pagingTrace_cons_some (some t) p (q :: rest) t2 ht2]
      constructor <;> simp [ih.1, ih.2, List.replicate_succ]

/-- C1: across all pages of a query, the rows handed to the batch loader
are the pages rows with exactly one header row removed: a page has its
first row stripped iff no continuation token was supplied for that fetch
(which happens exactly on the first fetch), every later page passes
through unmodified, and the total row count handed over equals the sum
of the page row counts minus the one header row. -/
theorem c1_header_stripped_exactly_once (p : ResultPage) (rest : List ResultPage)
    (hch : chainB (p :: rest) = true) (hhdr : 1 ≤ p.rows.length) :
    (pagingTrace none (p :: rest)).map Prod.snd
        = p.rows.drop 1 :: rest.map ResultPage.rows
    ∧ (pagingTrace none (p :: rest)).map (fun e => e.1.isNone)
        = true :: List.replicate rest.length false
    ∧ ((pagingTrace none (p :: rest)).map (fun e => e.2.length)).sum
        = (((p :: rest).map fun q => q.rows.length).sum) - 1 := by
  have hmain : (pagingTrace none (p :: rest)).map Prod.snd
      = p.rows.drop 1 :: rest.map ResultPage.rows
      ∧ (pagingTrace none (p :: rest)).map (fun e => e.1.isNone)
      = true :: List.replicate rest.length false := by
    cases rest with
    | nil =>
        have hp : p.nextToken = none := by
          simpa [chainB, Option.isNone_iff_eq_none] using hch
        rw [pagingTrace_cons_none none p [] hp]
        constructor <;> simp
    | cons q rest2 =>
        have h1 : p.nextToken.isSome = true := by
          simp [chainB] at hch; exact hch.1
        have h2 : chainB (q :: rest2) = true := by
          simp [chainB] at hch; exact hch.2
        obtain ⟨t2, ht2⟩ := Option.isSome_iff_exists.mp h1
        have ih := pagingTrace_all_pass t2 (q :: rest2) h2
        rw [pagingTrace_cons_some none p (q :: rest2) t2 ht2]
        constructor <;> simp [ih.1, ih.2, List.replicate_succ]
  refine ⟨hmain.1, hmain.2, ?_⟩
  have hlen : (pagingTrace none (p :: rest)).map (fun e => e.2.length)
      = ((pagingTrace none (p :: rest)).map Prod.snd).map List.length := by
    simp [List.map_map]
  have hsum : ∀ (L : List ResultPage),
      ((L.map ResultPage.rows).map List.length).sum
        = (L.map fun q => q.rows.length).sum := by
    intro L
    rw [List.map_map]
    rfl
  rw [hlen, hmain.1]
  simp only [List.map_cons, List.sum_cons, List.length_drop, hsum rest]
  omega

/-- Witness for C1 at the two-page scenario from the specification. -/
theorem c1_header_stripped_exactly_once_witness :
    (pagingTrace none [⟨[["id", "name"], ["1", "alice"], ["2", "bob"]], some "tok"⟩,
        ⟨[["3", "carol"]], none⟩]).map Prod.snd
        = (⟨[["id", "name"], ["1", "alice"], ["2", "bob"]], some "tok"⟩ : ResultPage).rows.drop 1
            :: [(⟨[["3", "carol"]], none⟩ : ResultPage)].map ResultPage.rows
    ∧ (pagingTrace none [⟨[["id", "name"], ["1", "alice"], ["2", "bob"]], some "tok"⟩,
        ⟨[["3", "carol"]], none⟩]).map (fun e => e.1.isNone)
        = true :: List.replicate 1 false
    ∧ ((pagingTrace none [⟨[["id", "name"], ["1", "alice"], ["2", "bob"]], some "tok"⟩,
        ⟨[["3", "carol"]], none⟩]).map (fun e => e.2.length)).sum
        = (([⟨[["id", "name"], ["1", "alice"], ["2", "bob"]], some "tok"⟩,
            (⟨[["3", "carol"]], none⟩ : ResultPage)].map fun q => q.rows.length).sum) - 1 :=
  c1_header_stripped_exactly_once
    ⟨[["id", "name"], ["1", "alice"], ["2", "bob"]], some "tok"⟩
    [⟨[["3", "carol"]], none⟩] (by decide) (by decide)

lemma enumFrom_map_fst_apply {α β : Type} (f : Nat → β) :
    ∀ (l : List α) (n : Nat),
      (List.enumFrom n l).map (fun q => f q.1) = (List.range' n l.length).map f
  | [], _ => rfl
  | x :: xs, n => by
      simp only [List.enumFrom, List.map_cons, List.length_cons, List.range'_succ,
        enumFrom_map_fst_apply f xs (n + 1)]

lemma rowPlaceholders_eq_range' (c i : Nat) (row : List String)
    (h : row.length = c) :
    rowPlaceholders c i row = List.range' (i * c + 1) c := by
  unfold rowPlaceholders
  rw [List.enum_eq_enumFrom, enumFrom_map_fst_apply (fun j => i * c + j + 1) row 0]
  have hf : (fun j => i * c + j + 1) = (fun j => (i * c + 1) + j) := by
    funext j
    omega
  rw [h, hf, List.map_add_range' (i * c + 1) 0 c 1, Nat.add_zero]

lemma batchPlaceholders_chunk (c : Nat) :
    ∀ (rows : List (List String)) (k : Nat), (∀ r ∈ rows, r.length = c) →
      ((List.enumFrom k rows).map fun p => rowPlaceholders c p.1 p.2).flatten
        = List.range' (k * c + 1) (rows.length * c)
  | [], _, _ => by simp
  | r :: rs, k, h => by
      have hr : r.length = c := h r (List.mem_cons_self r rs)
      have ih := batchPlaceholders_chunk c rs (k + 1)
        (fun x hx => h x (List.mem_cons_of_mem r hx))
      simp only [List.enumFrom, List.map_cons, List.flatten_cons, ih,
        rowPlaceholders_eq_range' c k r hr]
      rw [show (k + 1) * c + 1 = (k * c + 1) + c by ring, List.range'_append_1]
      rw [show rs.length * c + c = (r :: rs).length * c by
        simp [List.length_cons]; ring]

lemma length_flatten_const {α : Type} (c : Nat) :
    ∀ (rows : List (List α)), (∀ r ∈ rows, r.length = c) →
      rows.flatten.length = rows.length * c
  | [], _ => by simp
  | r :: rs, h => by
      have hr : r.length = c := h r (List.mem_cons_self r rs)
      have ih := length_flatten_const c rs (fun x hx => h x (List.mem_cons_of_mem r hx))
      simp only [List.flatten_cons, List.length_append, List.length_cons, ih, hr]
      ring

lemma flatten_getElem_rect {α : Type} (c : Nat) :
    ∀ (rows : List (List α)) (i j : Nat), (∀ r ∈ rows, r.length = c) → j < c →
      rows.flatten[i * c + j]? = rows[i]?.bind fun r => r[j]?
  | [], i, j, _, _ => by simp
  | r :: rs, 0, j, h, hj => by
      have hr : r.length = c := h r (List.mem_cons_self r rs)
      simp only [List.flatten_cons, Nat.zero_mul, Nat.zero_add]
      rw [List.getElem?_append_left (by omega : j < r.length)]
      simp
  | r :: rs, i + 1, j, h, hj => by
      have hr : r.length = c := h r (List.mem_cons_self r rs)
      have ih := flatten_getElem_rect c rs i j
        (fun x hx => h x (List.mem_cons_of_mem r hx)) hj
      have hcle : r.length ≤ (i + 1) * c + j := by
        rw [hr, Nat.succ_mul]
        omega
      simp only [List.flatten_cons]
      rw [List.getElem?_append_right hcle]
      rw [show (i + 1) * c + j - r.length = i * c + j by
        rw [hr, Nat.succ_mul]; omega]
      simpa using ih

/-- C2: for a batch of R rows by C columns, the generated placeholder
numbers are exactly 1 .. R*C, each used once, in row-major order (the
number for row i, column j is i*C+j+1), the flattened parameter array
has length R*C, and its entry at flattened position i*C+j is the value of
row i, column j. -/
theorem c2_placeholder_bijection (rows : List (List String)) (R C : Nat)
    (hR : rows.length = R) (hrect : ∀ r ∈ rows, r.length = C) :
    batchPlaceholders rows = List.range' 1 (R * C)
    ∧ (batchValues rows).length = R * C
    ∧ ∀ i j : Nat, i < R → j < C →
        (batchValues rows)[i * C + j]? = rows[i]?.bind fun r => r[j]? := by
  subst hR
  refine ⟨?_, ?_, ?_⟩
  · cases rows with
    | nil => simp [batchPlaceholders]
    | cons r rs =>
        have hc : columnsCount (r :: rs) = C := by
          simp [columnsCount, hrect r (List.mem_cons_self r rs)]
        unfold batchPlaceholders
        rw [List.enum_eq_enumFrom, hc, batchPlaceholders_chunk C (r :: rs) 0 hrect]
        simp
  · exact length_flatten_const C rows hrect
  · intro i j _ hj
    exact flatten_getElem_rect C rows i j hrect hj

/-- Witness for C2 at a concrete 2 by 2 batch. -/
theorem c2_placeholder_bijection_witness :
    batchPlaceholders [["1", "alice"], ["2", "bob"]] = List.range' 1 (2 * 2)
    ∧ (batchValues [["1", "alice"], ["2", "bob"]]).length = 2 * 2
    ∧ ∀ i j : Nat, i < 2 → j < 2 →
        (batchValues [["1", "alice"], ["2", "bob"]])[i * 2 + j]?
          = [["1", "alice"], ["2", "bob"]][i]?.bind fun r => r[j]? :=
  c2_placeholder_bijection [["1", "alice"], ["2", "bob"]] 2 2 (by decide)
    (by intro r hr; fin_cases hr <;> decide)

/-- C5: every `insertIntoPostgresAsBatch` call that acquired a pooled
connection releases it exactly once, whether the query succeeds or the
database throws (the `finally` block runs on both paths). -/
theorem c5_connection_released_exactly_once (schema tableName : String)
    (columns : List String) (rows : List (List String))
    (outcome : Except String Nat) :
    (insertIntoPostgresAsBatch schema tableName columns rows outcome).releases = 1 := by
  cases outcome <;> rfl

/-- C4 counterexample: called with an empty row set, the code does not
reject the call: it still builds the statement (a malformed INSERT whose
VALUES clause is empty) and still executes it against the database. -/
theorem c4_counterexample :
    (insertIntoPostgresAsBatch "public" "able1" ["id", "name"] []
        (Except.error "syntax error at end of input")).executed = true
    ∧ (insertIntoPostgresAsBatch "public" "able1" ["id", "name"] []
        (Except.error "syntax error at end of input")).query
      = "INSERT INTO public.able1 (id, name) VALUES " := by
  constructor <;> rfl

/-- C4 amended: with `rows = []` the function performs no empty-row
check: it constructs an INSERT statement with an empty VALUES clause,
acquires a connection and executes the malformed statement (whose
database error is then caught and logged), rather than returning early
as a no-op. -/
theorem c4_empty_rows_still_executed (schema tableName : String)
    (columns : List String) (outcome : Except String Nat) :
    (insertIntoPostgresAsBatch schema tableName columns [] outcome).executed = true
    ∧ (insertIntoPostgresAsBatch schema tableName columns [] outcome).query
      = "INSERT INTO " ++ schema ++ "." ++ tableName ++ " ("
          ++ String.intercalate ", " columns ++ ") VALUES " := by
  have hq : insertQueryText schema tableName columns []
      = "INSERT INTO " ++ schema ++ "." ++ tableName ++ " ("
          ++ String.intercalate ", " columns ++ ") VALUES " := by
    unfold insertQueryText
    simp [String.intercalate]
  cases outcome <;> exact ⟨rfl, hq⟩

lemma queryAthena_submission_error (schema ath pg : String) (columns : List String)
    (e : String) (statuses : List StatusResp) (pages : List ResultPage)
    (db : Nat → Except String Nat) :
    queryAthena schema ath pg columns (Except.error e) statuses pages db
      = Except.error e := rfl

lemma queryAthena_failed (schema ath pg : String) (columns : List String)
    (sid : String) (statuses : List StatusResp) (pages : List ResultPage)
    (db : Nat → Except String Nat) (s : StatusResp)
    (hpoll : pollStatuses statuses = some s) (hf : s.state = QState.failed) :
    queryAthena schema ath pg columns (Except.ok sid) statuses pages db
      = Except.ok (some (failedRun columns ath s.reason)) := by
  simp [queryAthena, failedRun, hpoll, hf]

lemma queryAthena_not_failed (schema ath pg : String) (columns : List String)
    (sid : String) (statuses : List StatusResp) (pages : List ResultPage)
    (db : Nat → Except String Nat) (s : StatusResp)
    (hpoll : pollStatuses statuses = some s) (hnf : ¬ s.state = QState.failed) :
    queryAthena schema ath pg columns (Except.ok sid) statuses pages db
      = Except.ok (some (succeededRun schema ath pg columns pages db)) := by
  simp [queryAthena, succeededRun, hpoll, hnf]

lemma runTables_cons_raised (schema : String) (sub : String → Except String String)
    (stat : String → List StatusResp) (pgs : String → List ResultPage)
    (db : String → Nat → Except String Nat) (t : TableDef) (rest : List TableDef)
    (e : String)
    (hq : queryAthena schema t.athName t.pgName t.columns (sub t.athName)
        (stat t.athName) (pgs t.athName) (db t.athName) = Except.error e) :
    runTables schema sub stat pgs db (t :: rest)
      = { raised := some e, reached := [t.athName], results := [], hung := false } := by
  simp only [runTables, hq]

lemma runTables_cons_ok (schema : String) (sub : String → Except String String)
    (stat : String → List StatusResp) (pgs : String → List ResultPage)
    (db : String → Nat → Except String Nat) (t : TableDef) (rest : List TableDef)
    (r : QueryRun)
    (hq : queryAthena schema t.athName t.pgName t.columns (sub t.athName)
        (stat t.athName) (pgs t.athName) (db t.athName) = Except.ok (some r)) :
    runTables schema sub stat pgs db (t :: rest)
      = { raised := (runTables schema sub stat pgs db rest).raised,
          reached := t.athName :: (runTables schema sub stat pgs db rest).reached,
          results := (t.athName, r) :: (runTables schema sub stat pgs db rest).results,
          hung := (runTables schema sub stat pgs db rest).hung } := by
  simp only [runTables, hq]

lemma queryAthena_ok_of_terminal (schema ath pg : String) (columns : List String)
    (sid : String) (statuses : List StatusResp) (pages : List ResultPage)
    (db : Nat → Except String Nat) (s : StatusResp)
    (hpoll : pollStatuses statuses = some s) :
    ∃ r : QueryRun,
      queryAthena schema ath pg columns (Except.ok sid) statuses pages db
        = Except.ok (some r)
      ∧ r.queryString = "SELECT " ++ String.intercalate ", " columns
          ++ " FROM " ++ ath := by
  by_cases hf : s.state = QState.failed
  · exact ⟨_, queryAthena_failed schema ath pg columns sid statuses pages db s hpoll hf, rfl⟩
  · exact ⟨_, queryAthena_not_failed schema ath pg columns sid statuses pages db s hpoll hf, rfl⟩

lemma runTables_all_ok (schema : String) (sub : String → Except String String)
    (stat : String → List StatusResp) (pgs : String → List ResultPage)
    (db : String → Nat → Except String Nat) :
    ∀ (tables : List TableDef),
      (∀ t ∈ tables, ∃ v, sub t.athName = Except.ok v) →
      (∀ t ∈ tables, ∃ s, pollStatuses (stat t.athName) = some s) →
      (runTables schema sub stat pgs db tables).raised = none
      ∧ (runTables schema sub stat pgs db tables).hung = false
      ∧ (runTables schema sub stat pgs db tables).reached = tables.map TableDef.athName
      ∧ (runTables schema sub stat pgs db tables).results.map Prod.fst
          = tables.map TableDef.athName
      ∧ ∀ pr ∈ (runTables schema sub stat pgs db tables).results,
          ∃ t ∈ tables, pr.1 = t.athName
            ∧ pr.2.queryString = "SELECT " ++ String.intercalate ", " t.columns
                ++ " FROM " ++ t.athName
  | [], _, _ => by simp [runTables]
  | t :: rest, hsub, hstat => by
      obtain ⟨v, hv⟩ := hsub t (List.mem_cons_self t rest)
      obtain ⟨s, hs⟩ := hstat t (List.mem_cons_self t rest)
      have ih := runTables_all_ok schema sub stat pgs db rest
        (fun u hu => hsub u (List.mem_cons_of_mem t hu))
        (fun u hu => hstat u (List.mem_cons_of_mem t hu))
      have hq : ∃ r : QueryRun,
          queryAthena schema t.athName t.pgName t.columns (sub t.athName)
            (stat t.athName) (pgs t.athName) (db t.athName) = Except.ok (some r)
          ∧ r.queryString = "SELECT " ++ String.intercalate ", " t.columns
              ++ " FROM " ++ t.athName := by
        rw [hv]
        exact queryAthena_ok_of_terminal schema t.athName t.pgName t.columns v
          (stat t.athName) (pgs t.athName) (db t.athName) s hs
      obtain ⟨r, hqa, hqs⟩ := hq
      rw [runTables_cons_ok schema sub stat pgs db t rest r hqa]
      refine ⟨ih.1, ih.2.1, ?_, ?_, ?_⟩
      · simp [ih.2.2.1]
      · simp [ih.2.2.2.1]
      · intro pr hpr
        rcases List.mem_cons.mp hpr with heq | hmem
        · exact ⟨t, List.mem_cons_self t rest, by rw [heq], by rw [heq]; exact hqs⟩
        · obtain ⟨u, hu, h1, h2⟩ := ih.2.2.2.2 pr hmem
          exact ⟨u, List.mem_cons_of_mem t hu, h1, h2⟩

/-- C3 counterexample: a run containing a table whose query execution
reaches FAILED still completes with exit code 0, and no non-zero exit or
failed-table list is produced, refuting the claimed equivalence between
exit code 0 and every table reaching LOADED. -/
theorem c3_counterexample :
    scriptExitCode (insertTablesInOrder "public" ["glue_table1"] (fun _ => ["id"])
        (fun _ => Except.ok "exec-1")
        (fun _ => [⟨QState.submitted, ""⟩, ⟨QState.running, ""⟩,
          ⟨QState.failed, "syntax error"⟩])
        (fun _ => []) (fun _ _ => Except.ok 0)) = some 0
    ∧ ((insertTablesInOrder "public" ["glue_table1"] (fun _ => ["id"])
        (fun _ => Except.ok "exec-1")
        (fun _ => [⟨QState.submitted, ""⟩, ⟨QState.running, ""⟩,
          ⟨QState.failed, "syntax error"⟩])
        (fun _ => []) (fun _ _ => Except.ok 0)).results.map
          fun pr => queryFailed pr.2) = [true] := by
  constructor <;> rfl

/-- C3 amended: whenever every submission succeeds and every polling
loop reaches a terminal state, the run completes and the process exits
with code 0 — regardless of whether any table ended in a FAILED query
execution; the script tracks no per-table outcome and reports no list of
failed tables. -/
theorem c3_exit_zero_whenever_run_completes (schema : String) (names : List String)
    (meta : String → List String) (sub : String → Except String String)
    (stat : String → List StatusResp) (pgs : String → List ResultPage)
    (db : String → Nat → Except String Nat)
    (hsub : ∀ n ∈ names, ∃ v, sub n = Except.ok v)
    (hstat : ∀ n ∈ names, ∃ s, pollStatuses (stat n) = some s) :
    scriptExitCode (insertTablesInOrder schema names meta sub stat pgs db) = some 0 := by
  have h := runTables_all_ok schema sub stat pgs db (names.map (resolveMetadata meta))
    (fun t ht => by
      obtain ⟨n, hn, rfl⟩ := List.mem_map.mp ht
      exact hsub n hn)
    (fun t ht => by
      obtain ⟨n, hn, rfl⟩ := List.mem_map.mp ht
      exact hstat n hn)
  unfold insertTablesInOrder
  simp [scriptExitCode, h.1, h.2.1]

/-- Witness for the amended C3, with one FAILED table in the run. -/
theorem c3_exit_zero_whenever_run_completes_witness :
    scriptExitCode (insertTablesInOrder "public" ["glue_table1", "glue_table2"]
        (fun _ => ["id"]) (fun _ => Except.ok "exec")
        (fun n => if n = "glue_table1" then [⟨QState.failed, "syntax error"⟩]
          else [⟨QState.succeeded, ""⟩])
        (fun _ => []) (fun _ _ => Except.ok 0)) = some 0 :=
  c3_exit_zero_whenever_run_completes "public" ["glue_table1", "glue_table2"]
    (fun _ => ["id"]) (fun _ => Except.ok "exec")
    (fun n => if n = "glue_table1" then [⟨QState.failed, "syntax error"⟩]
      else [⟨QState.succeeded, ""⟩])
    (fun _ => []) (fun _ _ => Except.ok 0)
    (by intro n hn; exact ⟨"exec", rfl⟩)
    (by intro n hn; fin_cases hn <;> exact ⟨_, rfl⟩)

/-- C6 counterexample: at the spec scenario (SUBMITTED, RUNNING,
RUNNING, FAILED with reason "syntax error") the call does not fail with
any error: it returns normally, merely logging the reason, so no
QueryExecutionError reaches the caller. -/
theorem c6_counterexample :
    queryAthena "public" "glue_table1" "able1" ["id"] (Except.ok "exec-1")
        [⟨QState.submitted, ""⟩, ⟨QState.running, ""⟩, ⟨QState.running, ""⟩,
          ⟨QState.failed, "syntax error"⟩]
        [⟨[["1"]], none⟩] (fun _ => Except.ok 1)
      = Except.ok (some (failedRun ["id"] "glue_table1" "syntax error")) := by
  rfl

/-- C6 amended: when the polled status reaches FAILED, `queryAthena`
logs the service-reported StateChangeReason and breaks out of the loop
returning normally (no error is thrown to the caller), submits the query
only once (no retry), and fetches no result pages and runs no batch for
that execution. -/
theorem c6_failed_logged_not_thrown (schema ath pg : String) (columns : List String)
    (sid : String) (statuses : List StatusResp) (pages : List ResultPage)
    (db : Nat → Except String Nat) (s : StatusResp)
    (hpoll : pollStatuses statuses = some s) (hf : s.state = QState.failed) :
    queryAthena schema ath pg columns (Except.ok sid) statuses pages db
      = Except.ok (some (failedRun columns ath s.reason)) :=
  queryAthena_failed schema ath pg columns sid statuses pages db s hpoll hf

/-- Witness for the amended C6 at the spec scenario trace. -/
theorem c6_failed_logged_not_thrown_witness :
    queryAthena "public" "glue_table2" "able2" ["id", "name"] (Except.ok "exec-2")
        [⟨QState.submitted, ""⟩, ⟨QState.running, ""⟩,
          ⟨QState.failed, "TABLE_NOT_FOUND"⟩]
        [⟨[["x"]], none⟩] (fun _ => Except.ok 1)
      = Except.ok (some (failedRun ["id", "name"] "glue_table2"
          (StatusResp.mk QState.failed "TABLE_NOT_FOUND").reason)) :=
  c6_failed_logged_not_thrown "public" "glue_table2" "able2" ["id", "name"] "exec-2"
    [⟨QState.submitted, ""⟩, ⟨QState.running, ""⟩, ⟨QState.failed, "TABLE_NOT_FOUND"⟩]
    [⟨[["x"]], none⟩] (fun _ => Except.ok 1)
    ⟨QState.failed, "TABLE_NOT_FOUND"⟩ (by rfl) (by rfl)

/-- C7 counterexample: when the catalog service rejects the first
submission of a table, the error is not caught anywhere: the run aborts
with that error and a non-zero exit, and the second table is never
processed. -/
theorem c7_counterexample :
    (insertTablesInOrder "public" ["glue_table1", "glue_table2"] (fun _ => ["id"])
        (fun n => if n = "glue_table1" then Except.error "bad syntax" else Except.ok "exec")
        (fun _ => [⟨QState.succeeded, ""⟩]) (fun _ => [⟨[["h"], ["1"]], none⟩])
        (fun _ _ => Except.ok 1)).raised = some "bad syntax"
    ∧ (insertTablesInOrder "public" ["glue_table1", "glue_table2"] (fun _ => ["id"])
        (fun n => if n = "glue_table1" then Except.error "bad syntax" else Except.ok "exec")
        (fun _ => [⟨QState.succeeded, ""⟩]) (fun _ => [⟨[["h"], ["1"]], none⟩])
        (fun _ _ => Except.ok 1)).reached = ["glue_table1"]
    ∧ scriptExitCode (insertTablesInOrder "public" ["glue_table1", "glue_table2"]
        (fun _ => ["id"])
        (fun n => if n = "glue_table1" then Except.error "bad syntax" else Except.ok "exec")
        (fun _ => [⟨QState.succeeded, ""⟩]) (fun _ => [⟨[["h"], ["1"]], none⟩])
        (fun _ _ => Except.ok 1)) = some 1 := by
  refine ⟨rfl, rfl, rfl⟩

/-- C7 amended: a SubmissionError is not caught at any per-table
boundary: after any prefix of tables that complete normally, the first
table whose submission throws aborts the whole run immediately — the
error propagates to the top level, the process exits non-zero, and the
tables after the failing one are never reached. -/
theorem c7_submission_error_aborts_run (schema : String)
    (sub : String → Except String String) (stat : String → List StatusResp)
    (pgs : String → List ResultPage) (db : String → Nat → Except String Nat)
    (pre : List TableDef) (t : TableDef) (rest : List TableDef) (e : String)
    (hpre : ∀ u ∈ pre, (∃ v, sub u.athName = Except.ok v)
        ∧ ∃ s, pollStatuses (stat u.athName) = some s)
    (ht : sub t.athName = Except.error e) :
    (runTables schema sub stat pgs db (pre ++ t :: rest)).raised = some e
    ∧ (runTables schema sub stat pgs db (pre ++ t :: rest)).reached
        = pre.map TableDef.athName ++ [t.athName]
    ∧ (runTables schema sub stat pgs db (pre ++ t :: rest)).hung = false
    ∧ scriptExitCode (runTables schema sub stat pgs db (pre ++ t :: rest)) = some 1 := by
  induction pre with
  | nil =>
      have hq : queryAthena schema t.athName t.pgName t.columns (sub t.athName)
          (stat t.athName) (pgs t.athName) (db t.athName) = Except.error e := by
        rw [ht]
        exact queryAthena_submission_error schema t.athName t.pgName t.columns e
          (stat t.athName) (pgs t.athName) (db t.athName)
      rw [List.nil_append, runTables_cons_raised schema sub stat pgs db t rest e hq]
      exact ⟨rfl, rfl, rfl, rfl⟩
  | cons u pre2 ih =>
      obtain ⟨⟨v, hv⟩, ⟨s, hs⟩⟩ := hpre u (List.mem_cons_self u pre2)
      have ih2 := ih (fun w hw => hpre w (List.mem_cons_of_mem u hw))
      have hq : ∃ r : QueryRun,
          queryAthena schema u.athName u.pgName u.columns (sub u.athName)
            (stat u.athName) (pgs u.athName) (db u.athName) = Except.ok (some r) := by
        rw [hv]
        obtain ⟨r, hr, _⟩ := queryAthena_ok_of_terminal schema u.athName u.pgName
          u.columns v (stat u.athName) (pgs u.athName) (db u.athName) s hs
        exact ⟨r, hr⟩
      obtain ⟨r, hqa⟩ := hq
      rw [List.cons_append, runTables_cons_ok schema sub stat pgs db u
        (pre2 ++ t :: rest) r hqa]
      refine ⟨ih2.1, ?_, ih2.2.2.1, ?_⟩
      · simp [ih2.2.1]
      · simp [scriptExitCode, ih2.1, ih2.2.2.1]

/-- Witness for the amended C7: one table completes, the next
submission throws, and the run aborts before the third table. -/
theorem c7_submission_error_aborts_run_witness :
    (runTables "public"
        (fun n => if n = "glue_table2" then Except.error "AccessDenied" else Except.ok "exec")
        (fun _ => [⟨QState.succeeded, ""⟩]) (fun _ => []) (fun _ _ => Except.ok 0)
        ([⟨"glue_table1", "able1", ["id"]⟩]
          ++ (⟨"glue_table2", "able2", ["id"]⟩ : TableDef) :: [⟨"glue_table3", "able3", ["id"]⟩])).raised
      = some "AccessDenied"
    ∧ (runTables "public"
        (fun n => if n = "glue_table2" then Except.error "AccessDenied" else Except.ok "exec")
        (fun _ => [⟨QState.succeeded, ""⟩]) (fun _ => []) (fun _ _ => Except.ok 0)
        ([⟨"glue_table1", "able1", ["id"]⟩]
          ++ (⟨"glue_table2", "able2", ["id"]⟩ : TableDef) :: [⟨"glue_table3", "able3", ["id"]⟩])).reached
      = [(⟨"glue_table1", "able1", ["id"]⟩ : TableDef)].map TableDef.athName ++ ["glue_table2"]
    ∧ (runTables "public"
        (fun n => if n = "glue_table2" then Except.error "AccessDenied" else Except.ok "exec")
        (fun _ => [⟨QState.succeeded, ""⟩]) (fun _ => []) (fun _ _ => Except.ok 0)
        ([⟨"glue_table1", "able1", ["id"]⟩]
          ++ (⟨"glue_table2", "able2", ["id"]⟩ : TableDef) :: [⟨"glue_table3", "able3", ["id"]⟩])).hung
      = false
    ∧ scriptExitCode (runTables "public"
        (fun n => if n = "glue_table2" then Except.error "AccessDenied" else Except.ok "exec")
        (fun _ => [⟨QState.succeeded, ""⟩]) (fun _ => []) (fun _ _ => Except.ok 0)
        ([⟨"glue_table1", "able1", ["id"]⟩]
          ++ (⟨"glue_table2", "able2", ["id"]⟩ : TableDef) :: [⟨"glue_table3", "able3", ["id"]⟩]))
      = some 1 :=
  c7_submission_error_aborts_run "public"
    (fun n => if n = "glue_table2" then Except.error "AccessDenied" else Except.ok "exec")
    (fun _ => [⟨QState.succeeded, ""⟩]) (fun _ => []) (fun _ _ => Except.ok 0)
    [⟨"glue_table1", "able1", ["id"]⟩] ⟨"glue_table2", "able2", ["id"]⟩
    [⟨"glue_table3", "able3", ["id"]⟩] "AccessDenied"
    (by intro u hu
        fin_cases hu
        exact ⟨⟨"exec", rfl⟩, ⟨⟨QState.succeeded, ""⟩, rfl⟩⟩)
    (by rfl)

/-- C8: metadata is resolved for every configured table before any
extraction begins (the loop runs over the fully resolved list), and the
tables are then extracted strictly one at a time in exactly the supplied
configuration order — the processing order equals the configured name
list, and the SELECT of each completed table was built from the metadata
resolved for that very name. -/
theorem c8_metadata_first_then_config_order (schema : String) (names : List String)
    (meta : String → List String) (sub : String → Except String String)
    (stat : String → List StatusResp) (pgs : String → List ResultPage)
    (db : String → Nat → Except String Nat)
    (hsub : ∀ n ∈ names, ∃ v, sub n = Except.ok v)
    (hstat : ∀ n ∈ names, ∃ s, pollStatuses (stat n) = some s) :
    insertTablesInOrder schema names meta sub stat pgs db
      = runTables schema sub stat pgs db (names.map (resolveMetadata meta))
    ∧ (insertTablesInOrder schema names meta sub stat pgs db).reached = names
    ∧ ∀ pr ∈ (insertTablesInOrder schema names meta sub stat pgs db).results,
        pr.2.queryString = "SELECT " ++ String.intercalate ", " (meta pr.1)
          ++ " FROM " ++ pr.1 := by
  have h := runTables_all_ok schema sub stat pgs db (names.map (resolveMetadata meta))
    (fun t ht => by
      obtain ⟨n, hn, rfl⟩ := List.mem_map.mp ht
      exact hsub n hn)
    (fun t ht => by
      obtain ⟨n, hn, rfl⟩ := List.mem_map.mp ht
      exact hstat n hn)
  refine ⟨rfl, ?_, ?_⟩
  · show (runTables schema sub stat pgs db (names.map (resolveMetadata meta))).reached = names
    rw [h.2.2.1, List.map_map]
    have : (TableDef.athName ∘ resolveMetadata meta) = id := rfl
    rw [this, List.map_id]
  · intro pr hpr
    obtain ⟨t, htm, h1, h2⟩ := h.2.2.2.2 pr hpr
    obtain ⟨n, hn, rfl⟩ := List.mem_map.mp htm
    rw [h2, h1]
    rfl

/-- Witness for C8 on a concrete three-table configuration. -/
theorem c8_metadata_first_then_config_order_witness :
    insertTablesInOrder "public" ["glue_table1", "glue_table2", "glue_table3"]
        (fun n => if n = "glue_table1" then ["id"] else ["id", "name"])
        (fun _ => Except.ok "exec") (fun _ => [⟨QState.succeeded, ""⟩])
        (fun _ => [⟨[["h"]], none⟩]) (fun _ _ => Except.ok 1)
      = runTables "public" (fun _ => Except.ok "exec") (fun _ => [⟨QState.succeeded, ""⟩])
          (fun _ => [⟨[["h"]], none⟩]) (fun _ _ => Except.ok 1)
          (["glue_table1", "glue_table2", "glue_table3"].map
            (resolveMetadata (fun n => if n = "glue_table1" then ["id"] else ["id", "name"])))
    ∧ (insertTablesInOrder "public" ["glue_table1", "glue_table2", "glue_table3"]
        (fun n => if n = "glue_table1" then ["id"] else ["id", "name"])
        (fun _ => Except.ok "exec") (fun _ => [⟨QState.succeeded, ""⟩])
        (fun _ => [⟨[["h"]], none⟩]) (fun _ _ => Except.ok 1)).reached
      = ["glue_table1", "glue_table2", "glue_table3"]
    ∧ ∀ pr ∈ (insertTablesInOrder "public" ["glue_table1", "glue_table2", "glue_table3"]
        (fun n => if n = "glue_table1" then ["id"] else ["id", "name"])
        (fun _ => Except.ok "exec") (fun _ => [⟨QState.succeeded, ""⟩])
        (fun _ => [⟨[["h"]], none⟩]) (fun _ _ => Except.ok 1)).results,
        pr.2.queryString = "SELECT " ++ String.intercalate ", "
            ((fun n => if n = "glue_table1" then ["id"] else ["id", "name"]) pr.1)
          ++ " FROM " ++ pr.1 :=
  c8_metadata_first_then_config_order "public" ["glue_table1", "glue_table2", "glue_table3"]
    (fun n => if n = "glue_table1" then ["id"] else ["id", "name"])
    (fun _ => Except.ok "exec") (fun _ => [⟨QState.succeeded, ""⟩])
    (fun _ => [⟨[["h"]], none⟩]) (fun _ _ => Except.ok 1)
    (by intro n hn; exact ⟨"exec", rfl⟩)
    (by intro n hn; exact ⟨⟨QState.succeeded, ""⟩, rfl⟩)

/-- C9: when the database rejects a batch, the error is caught and
logged with the table name, the connection is still released, and the
call returns normally, so every page of the query is still handed to the
loader (the batch count equals the page count) and a subsequent table
list is still processed by the loop. -/
theorem c9_failed_batch_logged_and_run_continues (schema ath pg : String)
    (columns : List String) (sid : String) (statuses : List StatusResp)
    (pages : List ResultPage) (db : Nat → Except String Nat) (s : StatusResp)
    (hpoll : pollStatuses statuses = some s) (hs : s.state = QState.succeeded)
    (k : Nat) (e : String) (hk : k < (pagingTrace none pages).length)
    (hdb : db k = Except.error e) :
    ∃ run : QueryRun,
      queryAthena schema ath pg columns (Except.ok sid) statuses pages db
        = Except.ok (some run)
      ∧ run.batches.length = (pagingTrace none pages).length
      ∧ run.batches[k]?.map BatchCall.errorLog
          = some (some ("Error while inserting into Postgres table " ++ pg))
      ∧ run.batches[k]?.map BatchCall.releases = some 1
      ∧ ∀ (rest : List TableDef),
          (runTables schema (fun _ => Except.ok sid) (fun _ => statuses)
              (fun _ => pages) (fun _ => db)
              (⟨ath, pg, columns⟩ :: rest)).reached
            = ath :: (runTables schema (fun _ => Except.ok sid) (fun _ => statuses)
                (fun _ => pages) (fun _ => db) rest).reached := by
  have hnf : ¬ s.state = QState.failed := by
    rw [hs]
    intro hcon
    exact QState.noConfusion hcon
  refine ⟨_, queryAthena_not_failed schema ath pg columns sid statuses pages db s hpoll hnf,
    ?_, ?_, ?_, ?_⟩
  · simp [succeededRun, List.enum_eq_enumFrom]
  · obtain ⟨tr, htr⟩ : ∃ tr, (pagingTrace none pages)[k]? = some tr :=
      ⟨_, List.getElem?_eq_getElem hk⟩
    simp only [succeededRun, List.getElem?_map, List.enum_eq_enumFrom,
      List.getElem?_enumFrom, htr, Option.map_some', Nat.zero_add, hdb]
    rfl
  · obtain ⟨tr, htr⟩ : ∃ tr, (pagingTrace none pages)[k]? = some tr :=
      ⟨_, List.getElem?_eq_getElem hk⟩
    simp only [succeededRun, List.getElem?_map, List.enum_eq_enumFrom,
      List.getElem?_enumFrom, htr, Option.map_some', Nat.zero_add, hdb]
    rfl
  · intro rest
    have hq := queryAthena_not_failed schema ath pg columns sid statuses pages db s
      hpoll hnf
    rw [runTables_cons_ok schema (fun _ => Except.ok sid) (fun _ => statuses)
      (fun _ => pages) (fun _ => db) ⟨ath, pg, columns⟩ rest _ hq]

/-- Witness for C9: a two-page query whose second batch is rejected by
the database. -/
theorem c9_failed_batch_logged_and_run_continues_witness :
    ∃ run : QueryRun,
      queryAthena "public" "glue_table1" "able1" ["id"] (Except.ok "exec")
          [⟨QState.succeeded, ""⟩]
          [⟨[["id"], ["1"]], some "t2"⟩, ⟨[["2"]], none⟩]
          (fun i => if i = 1 then Except.error "unique violation" else Except.ok 1)
        = Except.ok (some run)
      ∧ run.batches.length
          = (pagingTrace none [⟨[["id"], ["1"]], some "t2"⟩, ⟨[["2"]], none⟩]).length
      ∧ run.batches[1]?.map BatchCall.errorLog
          = some (some ("Error while inserting into Postgres table " ++ "able1"))
      ∧ run.batches[1]?.map BatchCall.releases = some 1
      ∧ ∀ (rest : List TableDef),
          (runTables "public" (fun _ => Except.ok "exec")
              (fun _ => [⟨QState.succeeded, ""⟩])
              (fun _ => [⟨[["id"], ["1"]], some "t2"⟩, ⟨[["2"]], none⟩])
              (fun _ => fun i => if i = 1 then Except.error "unique violation" else Except.ok 1)
              (⟨"glue_table1", "able1", ["id"]⟩ :: rest)).reached
            = "glue_table1" :: (runTables "public" (fun _ => Except.ok "exec")
                (fun _ => [⟨QState.succeeded, ""⟩])
                (fun _ => [⟨[["id"], ["1"]], some "t2"⟩, ⟨[["2"]], none⟩])
                (fun _ => fun i => if i = 1 then Except.error "unique violation" else Except.ok 1)
                rest).reached :=
  c9_failed_batch_logged_and_run_continues "public" "glue_table1" "able1" ["id"] "exec"
    [⟨QState.succeeded, ""⟩] [⟨[["id"], ["1"]], some "t2"⟩, ⟨[["2"]], none⟩]
    (fun i => if i = 1 then Except.error "unique violation" else Except.ok 1)
    ⟨QState.succeeded, ""⟩ (by rfl) (by rfl) 1 "unique violation" (by decide) (by rfl)

/-- C10 counterexample: the code removes the first six characters of the
source name, so the configured source "glue_table1" is loaded into
target "able1", not "table1" as the example in the claim asserts. -/
theorem c10_counterexample :
    (resolveMetadata (fun _ => ["id"]) "glue_table1").pgName = "able1"
    ∧ ("able1" : String) ≠ "table1" :=
  ⟨rfl, by decide⟩

/-- C10 amended: the target table name is always the source name with
its first six characters removed (never configured independently), and
that is the table name the INSERT statement of the batch loader is built
against; for the configured source "glue_table1" the target is "able1". -/
theorem c10_target_name_is_drop_six (meta : String → List String)
    (tableName schema : String) (cols : List String) (rows : List (List String))
    (o : Except String Nat) :
    (resolveMetadata meta tableName).pgName = tableName.drop 6
    ∧ (insertIntoPostgresAsBatch schema (resolveMetadata meta tableName).pgName
        cols rows o).tableName = tableName.drop 6 := by
  refine ⟨rfl, ?_⟩
  cases o <;> rfl

end AthenaToPostgres
